import Mathlib

/-!
Shallow embedding of the market-analysis agent: the cache, search-result
normalization, grounding-context construction, LLM-call classification and
orchestration of `gemini_market_agent.py`, together with the `/analyze`
handler of `app.py` (search-flag parsing and display-text sanitization).

Python strings are modelled as Lean `String`s (lists of characters).
Exceptions raised by the external search and LLM providers are modelled by
outcome inductives; functions of the source that catch every exception are
total functions into `String`.  The file-system cache is modelled as a map
from the query to the stored entry together with the file modification
time (the sha1-derived file name is one-per-query and assumed collision
free, so the query itself serves as the key).
-/

namespace MarketAgent

/-- Python `s[:n]` on a string: the first `n` characters. -/
def pyTake (n : Nat) (s : String) : String := ⟨s.data.take n⟩

/-- The whitespace set of Python `str.strip()` / `str.isspace()` in
CPython: `\t\n\x0b\x0c\r`, the file/group/record/unit separators,
space, next-line, no-break space, ogham space mark, the en/em and
figure/punctuation/thin/hair spaces U+2000..U+200A, line and paragraph
separators, narrow no-break space, medium mathematical space and
ideographic space. -/
def pyIsSpace (c : Char) : Bool :=
  [0x09, 0x0a, 0x0b, 0x0c, 0x0d, 0x1c, 0x1d, 0x1e, 0x1f, 0x20, 0x85, 0xa0, 0x1680,
    0x2000, 0x2001, 0x2002, 0x2003, 0x2004, 0x2005, 0x2006, 0x2007, 0x2008, 0x2009, 0x200a,
    0x2028, 0x2029, 0x202f, 0x205f, 0x3000].contains c.toNat

/-- Python `s.strip()`: remove leading and trailing whitespace
(Python's whitespace set, not just ASCII space/tab/newline). -/
def pyStrip (s : String) : String :=
  ⟨((s.data.dropWhile pyIsSpace).reverse.dropWhile pyIsSpace).reverse⟩

/-- Python `sep.join(xs)`. -/
def pyJoin (sep : String) : List String → String
  | [] => ""
  | [x] => x
  | x :: y :: ys => x ++ sep ++ pyJoin sep (y :: ys)

/-- One left-to-right pass of Python `s.replace(pat, repl)` over the
character list `s`, with `f` as recursion fuel (callers pass the length of
`s`, which always suffices because every step consumes at least one
character).  On a match the scan resumes after the matched occurrence,
exactly as CPython `str.replace` does. -/
def replaceFuel (pat repl : List Char) : Nat → List Char → List Char
  | _, [] => []
  | 0, s => s
  | f + 1, c :: rest =>
    if pat <+: (c :: rest) then
      repl ++ replaceFuel pat repl f (rest.drop (pat.length - 1))
    else
      c :: replaceFuel pat repl f rest

/-- Python `s.replace(pat, repl)` (the source never calls it with an empty
pattern). -/
def pyReplace (s pat repl : String) : String :=
  ⟨replaceFuel pat.data repl.data s.data.length s.data⟩

/-- Python `pat in s`: substring test. -/
def pyIn (pat s : String) : Bool := decide (pat.data <:+: s.data)

/-- Python `s.lower()`: lowercase character by character. -/
def pyLower (s : String) : String := ⟨s.data.map Char.toLower⟩

/-- One item of the provider's `items` JSON list, as consumed by
`fetch_search_results`: `it.get("title")`, `it.get("snippet")` and
`it.get("link")` each give `None` when the field is absent. -/
structure ProviderItem where
  title : Option String
  snippet : Option String
  link : Option String
deriving DecidableEq

/-- The record `fetch_search_results` appends for each provider item:
`{"title": it.get("title"), "snippet": it.get("snippet"),
"link": it.get("link"), "raw": it}`. -/
structure SearchItem where
  title : Option String
  snippet : Option String
  link : Option String
  raw : ProviderItem
deriving DecidableEq

/-- The normalization performed in the loop of `fetch_search_results`. -/
def normalizeItem (it : ProviderItem) : SearchItem :=
  ⟨it.title, it.snippet, it.link, it⟩

/-- Python `x or ""` applied to an optional string (`None` and `""` both
give `""`). -/
def orEmpty (o : Option String) : String := o.getD ""

/-- The JSON value stored by `cache_set`:
`{"items": items, "fetched_at": time.time()}`. -/
structure CacheEntry where
  items : List SearchItem
  fetched_at : Nat
deriving DecidableEq

/-- The cache directory: each query's file (if present) holds the stored
entry and the file's modification time. -/
def CacheStore : Type := String → Option (CacheEntry × Nat)

/-- A cache directory with no files. -/
def emptyStore : CacheStore := fun _ => none

/-- `cache_set(q, data)` at time `now`: write the file for `q`
(overwriting any prior entry); its modification time becomes `now`. -/
def cache_set (store : CacheStore) (q : String) (data : CacheEntry) (now : Nat) : CacheStore :=
  fun k => if k = q then some (data, now) else store k

/-- `cache_get(q)` at time `now`: return the stored entry only when the
file exists and `now - mtime < 3600`; otherwise `None`. -/
def cache_get (store : CacheStore) (q : String) (now : Nat) : Option CacheEntry :=
  match store q with
  | some (data, mtime) => if now - mtime < 3600 then some data else none
  | none => none

/-- The two Google Custom Search credentials read from the environment. -/
structure GoogleConfig where
  google_api_key : String
  google_cx : String

/-- Behaviour of the one `requests.get` call in `fetch_search_results`:
either the request raises (timeout, connection error, ...) or a response
arrives with a status code and an `items` list (absent list = `[]`, as
`data.get("items", [])` yields). -/
inductive HttpOutcome where
  | raises (msg : String)
  | response (status : Nat) (items : List ProviderItem)

/-- The exceptions `fetch_search_results` can raise. -/
inductive PyExn where
  | valueError (msg : String)
  | httpError (status : Nat)
  | requestError (msg : String)
deriving DecidableEq

/-- `fetch_search_results` of `gemini_market_agent.py`: credential check,
cache lookup, HTTP request (`raise_for_status` raises for status ≥ 400),
normalization, cache write.  The pair in the `ok` result carries the
returned items and the cache directory after the call. -/
def fetch_search_results (cfg : GoogleConfig) (store : CacheStore) (now : Nat) (query : String)
    (net : HttpOutcome) : Except PyExn (List SearchItem × CacheStore) :=
  if cfg.google_api_key = "" ∨ pyIn "PASTE" cfg.google_api_key = true
      ∨ cfg.google_cx = "" ∨ pyIn "PASTE" cfg.google_cx = true then
    Except.error (PyExn.valueError "Please set GOOGLE_API_KEY and GOOGLE_CX. See setup_google_search.md.")
  else
    match cache_get store query now with
    | some entry => Except.ok (entry.items, store)
    | none =>
      match net with
      | HttpOutcome.raises msg => Except.error (PyExn.requestError msg)
      | HttpOutcome.response status rawItems =>
        if 400 ≤ status then Except.error (PyExn.httpError status)
        else
          Except.ok (rawItems.map normalizeItem,
            cache_set store query ⟨rawItems.map normalizeItem, now⟩ now)

/-- One line appended per item in `build_context_from_search`:
`f"[{i}] {title}\nSnippet: {snippet}\nURL: {link}\n"` with the title
sliced to 200 characters and the snippet to 400. -/
def formatItem (i : Nat) (it : SearchItem) : String :=
  "[" ++ toString i ++ "] " ++ pyTake 200 (orEmpty it.title) ++
    "\nSnippet: " ++ pyTake 400 (orEmpty it.snippet) ++
    "\nURL: " ++ orEmpty it.link ++ "\n"

/-- The `lines` list built by the `enumerate(search_items, start=1)` loop
of `GeminiAgent.build_context_from_search`. -/
def buildLines (i : Nat) : List SearchItem → List String
  | [] => []
  | it :: rest => formatItem i it :: buildLines (i + 1) rest

/-- `GeminiAgent.build_context_from_search`: `"\n".join(lines)`. -/
def build_context_from_search (items : List SearchItem) : String :=
  pyJoin "\n" (buildLines 1 items)

/-- The text of the first candidate: either the SDK `response.text`
accessor raises (modelled with a message), or it yields a string
(`""` when no text was generated). -/
inductive CandText where
  | raisesOnAccess (msg : String)
  | val (t : String)
deriving DecidableEq

/-- One response candidate: its finish reason's `.name` and its text. -/
structure Candidate where
  finish_name : String
  text : CandText
deriving DecidableEq

/-- Behaviour of the `generate_content` call inside the `try` block of
`GeminiAgent._call_gemini`: either it raises, or it returns a response
with a candidate list. -/
inductive GeminiOutcome where
  | raises (msg : String)
  | returns (candidates : List Candidate)
deriving DecidableEq

/-- `GeminiAgent._call_gemini`: the layered classification of the provider
response.  Every exception raised inside the `try` block is caught and
reported as the `(Error calling Gemini API: ...)` string. -/
def _call_gemini (o : GeminiOutcome) : String :=
  match o with
  | GeminiOutcome.raises msg => "(Error calling Gemini API: " ++ msg ++ ")"
  | GeminiOutcome.returns [] =>
    "(The API returned no candidates. This may be due to a temporary issue.)"
  | GeminiOutcome.returns (c :: _) =>
    if c.finish_name = "SAFETY" then
      "(Agent response was blocked by safety filters. Try again, or use the \x27--no-search\x27 flag.)"
    else if c.finish_name = "RECITATION" then
      "(Agent response was blocked due to potential data recitation. Try modifying your query.)"
    else if c.finish_name = "MAX_OUTPUT_TOKENS" then
      "(Generation stopped due to hitting the output token limit. The analysis is incomplete. Consider increasing the max_output_tokens.)"
    else
      match c.text with
      | CandText.raisesOnAccess msg => "(Error calling Gemini API: " ++ msg ++ ")"
      | CandText.val t =>
        if t = "" then
          "(Generation finished with reason: " ++ c.finish_name ++ ". No text was generated.)"
        else pyStrip t

/-- Behaviour of the `fetch_search_results(query)` call inside
`ask_market`'s `try` block: raise, or return the item list. -/
inductive SearchOutcome where
  | raises (msg : String)
  | returns (items : List SearchItem)

/-- The grounding string computed by `GeminiAgent.ask_market`: empty when
search is off; the built context for a non-empty result list; a fixed
placeholder for an empty list; a fixed warning when the search raised
(the exception is caught, never propagated). -/
def groundingFor (use_search : Bool) (searchO : SearchOutcome) : String :=
  if use_search then
    match searchO with
    | SearchOutcome.returns items =>
      if items.isEmpty then "(No search results found.)"
      else build_context_from_search items
    | SearchOutcome.raises _ => "(Warning: search failed. Analysis will use general knowledge.)"
  else ""

/-- The `user_message` composed by `GeminiAgent.ask_market`. -/
def mkUserMessage (query grounding : String) : String :=
  "User query: " ++ query ++ "\n\n" ++
    "Use the following RECENT NEWS SNIPPETS as grounding:\n" ++
    grounding ++ "\n\n" ++
    "Follow the output format in the system instruction. If sources are insufficient, say so."

/-- `GeminiAgent.ask_market`, parametrized by the behaviour of the search
provider and of the LLM provider (the latter as a function of the
composed user message). -/
def ask_market (query : String) (use_search : Bool) (searchO : SearchOutcome)
    (llmB : String → GeminiOutcome) : String :=
  _call_gemini (llmB (mkUserMessage query (groundingFor use_search searchO)))

/-- The `search_used` flag of the `/analyze` handler in `app.py`:
`request.args.get("no-search", "false").lower() not in ("true", "t", "1")`. -/
def analyze_search_used (noSearchArg : Option String) : Bool :=
  !(pyLower (noSearchArg.getD "false") == "true"
    || pyLower (noSearchArg.getD "false") == "t"
    || pyLower (noSearchArg.getD "false") == "1")

/-- The string cleaning applied by the `/analyze` handler in `app.py`:
remove all `**` markers, then append an extra newline after each section
header, via six sequential `str.replace` calls. -/
def sanitize_analysis_output (s : String) : String :=
  pyReplace (pyReplace (pyReplace (pyReplace (pyReplace (pyReplace s "**" "")
    "1) Executive Summary" "1) Executive Summary\n")
    "2) Key Facts" "2) Key Facts\n")
    "3) SWOT" "3) SWOT\n")
    "4) Top 3 Strategic Recommendations" "4) Top 3 Strategic Recommendations\n")
    "5) Sources" "5) Sources\n"

/-- The `/analyze` handler of `app.py` (agent initialized): read the
query (default `"Ghost Kitchen Market US Strategy"`), compute the search
flag, call `ask_market` and sanitize its output for the template. -/
def analyze (qArg noSearchArg : Option String) (searchO : SearchOutcome)
    (llmB : String → GeminiOutcome) : String :=
  sanitize_analysis_output
    (ask_market (qArg.getD "Ghost Kitchen Market US Strategy") (analyze_search_used noSearchArg)
      searchO llmB)

/-- Concrete provider item used in witnesses. -/
def demoProviderItem : ProviderItem := ⟨some "NVIDIA", some "GPU maker", some "http://n"⟩

/-- Concrete search-item list used in witnesses. -/
def demoItems : List SearchItem := [normalizeItem demoProviderItem, normalizeItem ⟨none, none, none⟩]

/-- A 201-character title, one over the truncation bound. -/
def longTitle : String := ⟨List.replicate 201 'a'⟩

/-- A 401-character snippet, one over the truncation bound. -/
def longSnippet : String := ⟨List.replicate 401 'b'⟩

/-- A search record whose title and snippet exceed the bounds. -/
def demoItemLong : SearchItem :=
  ⟨some longTitle, some longSnippet, some "http://x", ⟨some longTitle, some longSnippet, some "http://x"⟩⟩

/-- A search record within the bounds. -/
def demoItemShort : SearchItem :=
  ⟨some "Short title", some "Short snippet", some "http://y", ⟨some "Short title", some "Short snippet", some "http://y"⟩⟩

/-- Concrete cache entry used in witnesses. -/
def demoEntry : CacheEntry := ⟨[demoItemShort], 5⟩

/-- A cache directory holding a fresh entry for `"nvidia"` written at
time 100. -/
def freshStore : CacheStore := cache_set emptyStore "nvidia" demoEntry 100

/-! Helper lemmas about the string model. -/

/-- Two strings with the same character list are equal. -/
theorem strExt {a b : String} (h : a.data = b.data) : a = b := by
  cases a; cases b; exact congrArg String.mk h

/-- The character list of a concatenation. -/
theorem data_append (a b : String) : (a ++ b).data = a.data ++ b.data := by
  cases a; cases b; rfl

/-- String concatenation is associative. -/
theorem str_append_assoc (a b c : String) : a ++ b ++ c = a ++ (b ++ c) := by
  apply strExt
  simp [data_append]

/-- A concatenation whose left part is non-empty is non-empty. -/
theorem appendLeft_ne_empty (x y : String) (hx : x ≠ "") : x ++ y ≠ "" := by
  intro h
  apply hx
  have hd : x.data ++ y.data = ([] : List Char) := by
    rw [← data_append]
    exact congrArg String.data h
  exact strExt ((List.append_eq_nil.mp hd).1)

/-- A prefix is an infix. -/
theorem preToInf {l₁ l₂ : List Char} : l₁ <+: l₂ → l₁ <:+: l₂ :=
  fun ⟨t, ht⟩ => ⟨[], t, by simp [ht]⟩

/-- An infix of the tail is an infix of the whole list. -/
theorem infTail {a : Char} {l₁ l₂ : List Char} : l₁ <:+: l₂ → l₁ <:+: a :: l₂ :=
  fun ⟨u, v, h⟩ => ⟨a :: u, v, by simp [h]⟩

/-- An infix of a cons is a prefix of it or an infix of the tail. -/
theorem infCases {l₁ l₂ : List Char} {a : Char} :
    l₁ <:+: a :: l₂ → l₁ <+: a :: l₂ ∨ l₁ <:+: l₂ := by
  rintro ⟨u, v, h⟩
  cases u with
  | nil => exact Or.inl ⟨v, by simpa using h⟩
  | cons b u' =>
    right
    refine ⟨u', v, ?_⟩
    have h' : b :: (u' ++ l₁ ++ v) = a :: l₂ := by simpa using h
    exact (List.cons.injEq _ _ _ _ ▸ h').2

/-- Unfolding a prefix of a cons. -/
theorem consPre {a b : Char} {l₁ l₂ : List Char} :
    (a :: l₁ <+: b :: l₂) ↔ a = b ∧ l₁ <+: l₂ := by
  constructor
  · rintro ⟨t, h⟩
    have h' : a :: (l₁ ++ t) = b :: l₂ := by simpa using h
    exact ⟨(List.cons.injEq _ _ _ _ ▸ h').1, t, (List.cons.injEq _ _ _ _ ▸ h').2⟩
  · rintro ⟨rfl, t, h⟩
    exact ⟨t, by simp [h]⟩

/-! Lemmas about `replaceFuel` / `pyReplace`. -/

/-- `replaceFuel` on the empty list is the empty list, for any fuel. -/
theorem replaceFuel_nil (pat repl : List Char) (f : Nat) : replaceFuel pat repl f [] = [] := by
  cases f <;> rfl

/-- Unfolding `replaceFuel` when the pattern does not match at the head. -/
theorem replaceFuel_cons_neg (pat repl : List Char) (f : Nat) (c : Char) (rest : List Char)
    (h : ¬ (pat <+: (c :: rest))) :
    replaceFuel pat repl (f + 1) (c :: rest) = c :: replaceFuel pat repl f rest := by
  simp [replaceFuel, h]

/-- Unfolding `replaceFuel` when the pattern matches at the head. -/
theorem replaceFuel_cons_pos (pat repl : List Char) (f : Nat) (c : Char) (rest : List Char)
    (h : pat <+: (c :: rest)) :
    replaceFuel pat repl (f + 1) (c :: rest) =
      repl ++ replaceFuel pat repl f (rest.drop (pat.length - 1)) := by
  simp [replaceFuel, h]

/-- If the pattern occurs nowhere in `s`, one replace pass is the
identity. -/
theorem replaceFuel_eq_self (pat repl : List Char) :
    ∀ (f : Nat) (s : List Char), s.length ≤ f → ¬ (pat <:+: s) → replaceFuel pat repl f s = s := by
  intro f
  induction f with
  | zero =>
    intro s hs _
    have hnil : s = [] := List.length_eq_zero.mp (Nat.le_zero.mp hs)
    subst hnil
    exact replaceFuel_nil pat repl 0
  | succ f ih =>
    intro s hs hni
    cases s with
    | nil => exact replaceFuel_nil pat repl (f + 1)
    | cons c rest =>
      have hpre : ¬ (pat <+: (c :: rest)) := fun hp => hni (preToInf hp)
      rw [replaceFuel_cons_neg pat repl f c rest hpre]
      have h1 : rest.length ≤ f := Nat.le_of_succ_le_succ hs
      have h2 : ¬ (pat <:+: rest) := fun hin => hni (infTail hin)
      rw [ih rest h1 h2]

/-- Removing `**` never matches at a head character other than `*`. -/
theorem star_cons_head (f : Nat) (d : Char) (r : List Char) (hd : d ≠ '*') :
    replaceFuel ['*', '*'] [] (f + 1) (d :: r) = d :: replaceFuel ['*', '*'] [] f r := by
  apply replaceFuel_cons_neg
  intro hp
  exact hd (consPre.mp hp).1.symm

/-- After one `**`-removal pass, no `**` occurrence remains. -/
theorem replaceFuel_star_free :
    ∀ (f : Nat) (s : List Char), s.length ≤ f →
      ¬ (['*', '*'] <:+: replaceFuel ['*', '*'] [] f s) := by
  intro f
  induction f with
  | zero =>
    intro s hs
    have hnil : s = [] := List.length_eq_zero.mp (Nat.le_zero.mp hs)
    subst hnil
    rw [replaceFuel_nil]
    rintro ⟨u, v, huv⟩
    simp at huv
  | succ f ih =>
    intro s hs
    cases s with
    | nil =>
      rw [replaceFuel_nil]
      rintro ⟨u, v, huv⟩
      simp at huv
    | cons c rest =>
      by_cases hpre : (['*', '*'] : List Char) <+: (c :: rest)
      · rcases consPre.mp hpre with ⟨hc, hr⟩
        rcases hr with ⟨t, ht⟩
        rw [replaceFuel_cons_pos _ _ _ _ _ hpre]
        have hdrop : rest.drop (List.length ['*', '*'] - 1) = t := by
          rw [← ht]; rfl
        have h1 : rest.length ≤ f := Nat.le_of_succ_le_succ hs
        have h2 : t.length ≤ rest.length := by
          rw [← ht]; simp
        rw [hdrop, List.nil_append]
        exact ih t (le_trans h2 h1)
      · rw [replaceFuel_cons_neg _ _ _ _ _ hpre]
        intro hinf
        rcases infCases hinf with hp | hi
        · rcases consPre.mp hp with ⟨hc, hr⟩
          cases rest with
          | nil =>
            rw [replaceFuel_nil] at hr
            rcases hr with ⟨t, ht⟩
            simp at ht
          | cons d r =>
            by_cases hd : d = '*'
            · apply hpre
              exact consPre.mpr ⟨hc, consPre.mpr ⟨hd.symm, ⟨r, rfl⟩⟩⟩
            · have hlen : (d :: r).length ≤ f := Nat.le_of_succ_le_succ hs
              cases f with
              | zero => simp at hlen
              | succ f' =>
                rw [star_cons_head f' d r hd] at hr
                rcases consPre.mp hr with ⟨hstar, _⟩
                exact hd hstar.symm
        · exact ih rest (Nat.le_of_succ_le_succ hs) hi

/-- `pyReplace` is the identity when the pattern does not occur. -/
theorem pyReplace_eq_self (s pat repl : String) (h : ¬ (pat.data <:+: s.data)) :
    pyReplace s pat repl = s :=
  strExt (replaceFuel_eq_self pat.data repl.data s.data.length s.data (Nat.le_refl _) h)

/-- The output of the `**`-removal pass contains no `**`. -/
theorem removeStars_no_star (s : String) :
    ¬ (("**" : String).data <:+: (pyReplace s "**" "").data) :=
  replaceFuel_star_free s.data.length s.data (Nat.le_refl _)

/-- The `**`-removal pass is idempotent. -/
theorem removeStars_idem (s : String) :
    pyReplace (pyReplace s "**" "") "**" "" = pyReplace s "**" "" :=
  pyReplace_eq_self _ _ _ (removeStars_no_star s)

/-- When the `**`-stripped text contains no section-header phrase, the
whole sanitizer collapses to the `**`-removal pass. -/
theorem sanitize_of_header_free (s : String)
    (h1 : ¬ (("1) Executive Summary" : String).data <:+: (pyReplace s "**" "").data))
    (h2 : ¬ (("2) Key Facts" : String).data <:+: (pyReplace s "**" "").data))
    (h3 : ¬ (("3) SWOT" : String).data <:+: (pyReplace s "**" "").data))
    (h4 : ¬ (("4) Top 3 Strategic Recommendations" : String).data <:+: (pyReplace s "**" "").data))
    (h5 : ¬ (("5) Sources" : String).data <:+: (pyReplace s "**" "").data)) :
    sanitize_analysis_output s = pyReplace s "**" "" := by
  unfold sanitize_analysis_output
  rw [pyReplace_eq_self _ _ _ h1, pyReplace_eq_self _ _ _ h2, pyReplace_eq_self _ _ _ h3,
    pyReplace_eq_self _ _ _ h4, pyReplace_eq_self _ _ _ h5]

/-- Claim C1, counterexample: the display-text sanitizer of the `/analyze`
handler is not idempotent.  On the input `"1) Executive Summary"` the
first application appends one newline after the header and the second
application appends another one. -/
theorem sanitize_not_idempotent_counterexample :
    sanitize_analysis_output (sanitize_analysis_output "1) Executive Summary") ≠
      sanitize_analysis_output "1) Executive Summary" := by decide

/-- Claim C1 (amended): the `**`-removal step of the sanitizer is
idempotent in general, and the full sanitizer (removal of `**` followed
by the section-header newline replacements) is idempotent on every input
whose `**`-stripped form contains none of the five section-header
phrases; on inputs containing a section header each application appends
one more newline after it, so full idempotence fails. -/
theorem sanitize_idem_of_header_free (s : String)
    (h1 : ¬ (("1) Executive Summary" : String).data <:+: (pyReplace s "**" "").data))
    (h2 : ¬ (("2) Key Facts" : String).data <:+: (pyReplace s "**" "").data))
    (h3 : ¬ (("3) SWOT" : String).data <:+: (pyReplace s "**" "").data))
    (h4 : ¬ (("4) Top 3 Strategic Recommendations" : String).data <:+: (pyReplace s "**" "").data))
    (h5 : ¬ (("5) Sources" : String).data <:+: (pyReplace s "**" "").data)) :
    sanitize_analysis_output (sanitize_analysis_output s) = sanitize_analysis_output s := by
  have hs : sanitize_analysis_output s = pyReplace s "**" "" :=
    sanitize_of_header_free s h1 h2 h3 h4 h5
  rw [hs]
  have hRR : pyReplace (pyReplace s "**" "") "**" "" = pyReplace s "**" "" := removeStars_idem s
  have h1' : ¬ (("1) Executive Summary" : String).data <:+:
      (pyReplace (pyReplace s "**" "") "**" "").data) := by rw [hRR]; exact h1
  have h2' : ¬ (("2) Key Facts" : String).data <:+:
      (pyReplace (pyReplace s "**" "") "**" "").data) := by rw [hRR]; exact h2
  have h3' : ¬ (("3) SWOT" : String).data <:+:
      (pyReplace (pyReplace s "**" "") "**" "").data) := by rw [hRR]; exact h3
  have h4' : ¬ (("4) Top 3 Strategic Recommendations" : String).data <:+:
      (pyReplace (pyReplace s "**" "") "**" "").data) := by rw [hRR]; exact h4
  have h5' : ¬ (("5) Sources" : String).data <:+:
      (pyReplace (pyReplace s "**" "") "**" "").data) := by rw [hRR]; exact h5
  rw [sanitize_of_header_free (pyReplace s "**" "") h1' h2' h3' h4' h5', hRR]

/-- Claim C1, witness: on a concrete header-free input the sanitizer is
idempotent. -/
theorem sanitize_idem_of_header_free_witness :
    sanitize_analysis_output (sanitize_analysis_output "Strong **growth** ahead") =
      sanitize_analysis_output "Strong **growth** ahead" :=
  sanitize_idem_of_header_free "Strong **growth** ahead"
    (by decide) (by decide) (by decide) (by decide) (by decide)

/-! Non-emptiness of `_call_gemini` and `ask_market`. -/

/-- If a `dropWhile` result is empty, the predicate held everywhere. -/
theorem dropNilAll (p : Char → Bool) :
    ∀ (l : List Char), l.dropWhile p = [] → ∀ x ∈ l, p x = true := by
  intro l
  induction l with
  | nil => intro _ x hx; cases hx
  | cons c r ih =>
    intro h x hx
    by_cases hc : p c = true
    · rw [List.dropWhile_cons, if_pos hc] at h
      cases hx with
      | head => exact hc
      | tail _ hx' => exact ih h x hx'
    · rw [List.dropWhile_cons, if_neg hc] at h
      cases h

/-- If every element surviving `dropWhile p` satisfies `p`, every element
of the original list does. -/
theorem dropAllOf (p : Char → Bool) :
    ∀ (l : List Char), (∀ x ∈ l.dropWhile p, p x = true) → ∀ x ∈ l, p x = true := by
  intro l
  induction l with
  | nil => intro _ x hx; cases hx
  | cons c r ih =>
    intro h x hx
    by_cases hc : p c = true
    · rw [List.dropWhile_cons, if_pos hc] at h
      cases hx with
      | head => exact hc
      | tail _ hx' => exact ih h x hx'
    · rw [List.dropWhile_cons, if_neg hc] at h
      exact h x hx

/-- Stripping a string containing a character outside Python's
whitespace set yields a non-empty string. -/
theorem pyStrip_ne_empty (s : String) (h : ∃ c ∈ s.data, pyIsSpace c = false) :
    pyStrip s ≠ "" := by
  rcases h with ⟨c, hc, hw⟩
  intro he
  have hdata : ((s.data.dropWhile pyIsSpace).reverse.dropWhile pyIsSpace).reverse
      = ([] : List Char) := congrArg String.data he
  rw [List.reverse_eq_nil_iff] at hdata
  have h1 : ∀ x ∈ (s.data.dropWhile pyIsSpace).reverse, pyIsSpace x = true :=
    dropNilAll _ _ hdata
  have h2 : ∀ x ∈ s.data.dropWhile pyIsSpace, pyIsSpace x = true :=
    fun x hx => h1 x (List.mem_reverse.mpr hx)
  have h3 : ∀ x ∈ s.data, pyIsSpace x = true := dropAllOf _ _ h2
  rw [h3 c hc] at hw
  cases hw

/-- Every branch of `_call_gemini` yields a non-empty string, as long as
any plain candidate text returned by the provider is empty or contains a
non-whitespace character. -/
theorem call_gemini_ne_empty (o : GeminiOutcome)
    (h : ∀ (c : Candidate) (cs : List Candidate) (t : String),
      o = GeminiOutcome.returns (c :: cs) → c.text = CandText.val t → t ≠ "" →
      ∃ ch ∈ t.data, pyIsSpace ch = false) :
    _call_gemini o ≠ "" := by
  cases o with
  | raises msg =>
    show "(Error calling Gemini API: " ++ msg ++ ")" ≠ ""
    exact appendLeft_ne_empty _ _ (appendLeft_ne_empty _ _ (by decide))
  | returns cands =>
    cases cands with
    | nil => decide
    | cons c cs =>
      show (if c.finish_name = "SAFETY" then _ else _) ≠ ""
      by_cases h1 : c.finish_name = "SAFETY"
      · rw [if_pos h1]; decide
      rw [if_neg h1]
      by_cases h2 : c.finish_name = "RECITATION"
      · rw [if_pos h2]; decide
      rw [if_neg h2]
      by_cases h3 : c.finish_name = "MAX_OUTPUT_TOKENS"
      · rw [if_pos h3]; decide
      rw [if_neg h3]
      cases hct : c.text with
      | raisesOnAccess msg =>
        exact appendLeft_ne_empty _ _ (appendLeft_ne_empty _ _ (by decide))
      | val t =>
        show (if t = "" then
            "(Generation finished with reason: " ++ c.finish_name ++ ". No text was generated.)"
          else pyStrip t) ≠ ""
        by_cases h4 : t = ""
        · rw [if_pos h4]
          exact appendLeft_ne_empty _ _ (appendLeft_ne_empty _ _ (by decide))
        · rw [if_neg h4]
          exact pyStrip_ne_empty t (h c cs t rfl hct h4)

/-- Claim C2, counterexample: when the LLM provider returns a candidate
with a normal finish reason and whitespace-only text, `ask_market`
returns the empty string (`response.text` is truthy, so the empty-text
fallback is skipped and `strip` erases everything). -/
theorem ask_market_empty_on_blank_text :
    ask_market "pizza" false (SearchOutcome.returns [])
      (fun _ => GeminiOutcome.returns [⟨"STOP", CandText.val " "⟩]) = "" := by decide

/-- Claim C2 (amended): for every query, search flag and behaviour of the
search and LLM providers, `ask_market` never raises (it is a total
function into strings: every provider exception is caught) and returns a
non-empty string, provided that any plain candidate text the LLM returns
is empty or contains at least one character outside Python's whitespace
set.  Without that proviso the result can be empty: a candidate text
made only of Python whitespace, with a normal finish reason, is stripped
to the empty string. -/
theorem ask_market_nonempty_amended (query : String) (use_search : Bool)
    (searchO : SearchOutcome) (llmB : String → GeminiOutcome)
    (h : ∀ (m : String) (c : Candidate) (cs : List Candidate) (t : String),
      llmB m = GeminiOutcome.returns (c :: cs) → c.text = CandText.val t → t ≠ "" →
      ∃ ch ∈ t.data, pyIsSpace ch = false) :
    ask_market query use_search searchO llmB ≠ "" := by
  unfold ask_market
  exact call_gemini_ne_empty (llmB (mkUserMessage query (groundingFor use_search searchO)))
    (fun c cs t ho => h (mkUserMessage query (groundingFor use_search searchO)) c cs t ho)

/-- Claim C2, witness: a concrete run with an ordinary text candidate is
non-empty. -/
theorem ask_market_nonempty_amended_witness :
    ask_market "pizza market" false (SearchOutcome.returns [])
      (fun _ => GeminiOutcome.returns [⟨"STOP", CandText.val "Report."⟩]) ≠ "" :=
  ask_market_nonempty_amended "pizza market" false (SearchOutcome.returns [])
    (fun _ => GeminiOutcome.returns [⟨"STOP", CandText.val "Report."⟩])
    (by
      intro m c cs t hm ht hne
      injection hm with h1
      injection h1 with h2 h3
      subst h2
      injection ht with h4
      subst h4
      decide)

/-! Structure of `build_context_from_search`. -/

/-- The `lines` list has one entry per search item. -/
theorem buildLines_length (n : Nat) (items : List SearchItem) :
    (buildLines n items).length = items.length := by
  induction items generalizing n with
  | nil => rfl
  | cons it rest ih => simp [buildLines, ih]

/-- `formatItem` decomposed as its numbering header followed by the rest
of the block. -/
theorem formatItem_decomp (n : Nat) (it : SearchItem) :
    formatItem n it = "[" ++ toString n ++ "] " ++
      (pyTake 200 (orEmpty it.title) ++ ("\nSnippet: " ++ (pyTake 400 (orEmpty it.snippet) ++
        ("\nURL: " ++ (orEmpty it.link ++ "\n"))))) := by
  simp [formatItem, str_append_assoc]

/-- Block `i` (0-based) of the lines built from position `n` starts with
the numbering header `[n + i] `. -/
theorem buildLines_getD (n : Nat) (items : List SearchItem) :
    ∀ i, i < items.length →
      ∃ r : String, (buildLines n items).getD i "" = "[" ++ toString (n + i) ++ "] " ++ r := by
  induction items generalizing n with
  | nil => intro i hi; cases hi
  | cons it rest ih =>
    intro i hi
    cases i with
    | zero =>
      refine ⟨pyTake 200 (orEmpty it.title) ++ ("\nSnippet: " ++ (pyTake 400 (orEmpty it.snippet) ++
        ("\nURL: " ++ (orEmpty it.link ++ "\n")))), ?_⟩
      show formatItem n it = "[" ++ toString (n + 0) ++ "] " ++ _
      rw [Nat.add_zero]
      exact formatItem_decomp n it
    | succ i' =>
      have hi' : i' < rest.length := Nat.lt_of_succ_lt_succ hi
      rcases ih (n + 1) i' hi' with ⟨r, hr⟩
      refine ⟨r, ?_⟩
      show (buildLines (n + 1) rest).getD i' "" = _
      rw [show n + (i' + 1) = (n + 1) + i' from by omega]
      exact hr

/-- A formatted block is never the empty string. -/
theorem formatItem_ne_empty (n : Nat) (it : SearchItem) : formatItem n it ≠ "" := by
  rw [formatItem_decomp]
  exact appendLeft_ne_empty _ _ (appendLeft_ne_empty _ _ (appendLeft_ne_empty _ _ (by decide)))

/-- Joining a list headed by a non-empty string is non-empty. -/
theorem pyJoin_cons_ne_empty (sep x : String) (xs : List String) (hx : x ≠ "") :
    pyJoin sep (x :: xs) ≠ "" := by
  cases xs with
  | nil => simpa [pyJoin] using hx
  | cons y ys =>
    show x ++ sep ++ pyJoin sep (y :: ys) ≠ ""
    exact appendLeft_ne_empty _ _ (appendLeft_ne_empty _ _ hx)

/-- The built context is empty exactly for an empty item list. -/
theorem build_context_empty_iff (items : List SearchItem) :
    build_context_from_search items = "" ↔ items = [] := by
  constructor
  · intro h
    cases items with
    | nil => rfl
    | cons it rest =>
      exact absurd h (pyJoin_cons_ne_empty "\n" (formatItem 1 it) (buildLines 2 rest)
        (formatItem_ne_empty 1 it))
  · rintro rfl
    rfl

/-- Claim C3: the string built by `build_context_from_search` is the join
of exactly one numbered block per record, block `i` (0-based) carrying
the number `1 + i` in input order, and the output is empty exactly when
the input sequence is empty. -/
theorem build_context_block_structure (items : List SearchItem) :
    (buildLines 1 items).length = items.length ∧
    build_context_from_search items = pyJoin "\n" (buildLines 1 items) ∧
    (build_context_from_search items = "" ↔ items = []) ∧
    ∀ i, i < items.length →
      ∃ r : String, (buildLines 1 items).getD i "" = "[" ++ toString (1 + i) ++ "] " ++ r :=
  ⟨buildLines_length 1 items, rfl, build_context_empty_iff items, buildLines_getD 1 items⟩

/-- Claim C3, witness: the two-record demo list yields two blocks, the
second numbered `[2]`, and a non-empty output. -/
theorem build_context_block_structure_witness :
    (buildLines 1 demoItems).length = demoItems.length ∧
    (demoItems = [] ∨ build_context_from_search demoItems ≠ "") ∧
    ∃ r : String, (buildLines 1 demoItems).getD 1 "" = "[" ++ toString (1 + 1) ++ "] " ++ r :=
  ⟨(build_context_block_structure demoItems).1,
    Or.inr (fun he => by
      have := ((build_context_block_structure demoItems).2.2.1.mp he)
      simp [demoItems] at this),
    (build_context_block_structure demoItems).2.2.2 1 (by decide)⟩

/-- Claim C4: in every block, the title appears as the `pyTake 200` slice
and the snippet as the `pyTake 400` slice of the record's fields: a field
within its bound appears unmodified, and a longer field appears as
exactly its first 200 (resp. 400) characters. -/
theorem format_item_truncation (i : Nat) (it : SearchItem) :
    formatItem i it =
      "[" ++ toString i ++ "] " ++ pyTake 200 (orEmpty it.title) ++ "\nSnippet: " ++
        pyTake 400 (orEmpty it.snippet) ++ "\nURL: " ++ orEmpty it.link ++ "\n" ∧
    ((orEmpty it.title).data.length ≤ 200 → pyTake 200 (orEmpty it.title) = orEmpty it.title) ∧
    (200 < (orEmpty it.title).data.length →
      (pyTake 200 (orEmpty it.title)).data = (orEmpty it.title).data.take 200 ∧
      (pyTake 200 (orEmpty it.title)).data.length = 200) ∧
    ((orEmpty it.snippet).data.length ≤ 400 → pyTake 400 (orEmpty it.snippet) = orEmpty it.snippet) ∧
    (400 < (orEmpty it.snippet).data.length →
      (pyTake 400 (orEmpty it.snippet)).data = (orEmpty it.snippet).data.take 400 ∧
      (pyTake 400 (orEmpty it.snippet)).data.length = 400) := by
  refine ⟨rfl, ?_, ?_, ?_, ?_⟩
  · intro hle
    exact strExt (List.take_of_length_le hle)
  · intro hlt
    refine ⟨rfl, ?_⟩
    show ((orEmpty it.title).data.take 200).length = 200
    rw [List.length_take]
    omega
  · intro hle
    exact strExt (List.take_of_length_le hle)
  · intro hlt
    refine ⟨rfl, ?_⟩
    show ((orEmpty it.snippet).data.take 400).length = 400
    rw [List.length_take]
    omega

/-- Claim C4, witness: a 201-character title is cut to exactly 200
characters, a 401-character snippet to exactly 400, and in-bound fields
are unchanged. -/
theorem format_item_truncation_witness :
    (pyTake 200 (orEmpty demoItemLong.title)).data.length = 200 ∧
    (pyTake 400 (orEmpty demoItemLong.snippet)).data.length = 400 ∧
    pyTake 200 (orEmpty demoItemShort.title) = orEmpty demoItemShort.title ∧
    pyTake 400 (orEmpty demoItemShort.snippet) = orEmpty demoItemShort.snippet :=
  ⟨((format_item_truncation 1 demoItemLong).2.2.1 (by
      have h : (orEmpty demoItemLong.title).data = List.replicate 201 'a' := rfl
      rw [h, List.length_replicate]
      omega)).2,
    ((format_item_truncation 1 demoItemLong).2.2.2.2 (by
      have h : (orEmpty demoItemLong.snippet).data = List.replicate 401 'b' := rfl
      rw [h, List.length_replicate]
      omega)).2,
    (format_item_truncation 1 demoItemShort).2.1 (by decide),
    (format_item_truncation 1 demoItemShort).2.2.2.1 (by decide)⟩

/-! Cache, classification, normalization, orchestration and handler
claims. -/

/-- Claim C5: writing an entry and reading it back less than 3600 seconds
later returns exactly the stored entry, and reading it 3600 seconds or
more after the write is a miss. -/
theorem cache_roundtrip (store : CacheStore) (q : String) (data : CacheEntry) (tw tr : Nat)
    (_hle : tw ≤ tr) :
    (tr - tw < 3600 → cache_get (cache_set store q data tw) q tr = some data) ∧
    (3600 ≤ tr - tw → cache_get (cache_set store q data tw) q tr = none) := by
  constructor
  · intro h
    simp [cache_get, cache_set, h]
  · intro h
    simp [cache_get, cache_set, Nat.not_lt.mpr h]

/-- Claim C5, witness: a concrete write at time 100 is a hit at time 200
and a miss at time 3700. -/
theorem cache_roundtrip_witness :
    cache_get (cache_set emptyStore "nvidia" demoEntry 100) "nvidia" 200 = some demoEntry ∧
    cache_get (cache_set emptyStore "nvidia" demoEntry 100) "nvidia" 3700 = none :=
  ⟨(cache_roundtrip emptyStore "nvidia" demoEntry 100 200 (by decide)).1 (by decide),
    (cache_roundtrip emptyStore "nvidia" demoEntry 100 3700 (by decide)).2 (by decide)⟩

/-- Claim C6: whenever the first candidate's finish reason is `SAFETY`,
`_call_gemini` returns the fixed safety-block message — the candidate's
text (empty or not) is never consulted, so the safety classification
takes precedence over the empty-text classification. -/
theorem call_gemini_safety_precedence (c : Candidate) (cs : List Candidate)
    (h : c.finish_name = "SAFETY") :
    _call_gemini (GeminiOutcome.returns (c :: cs)) =
      "(Agent response was blocked by safety filters. Try again, or use the \x27--no-search\x27 flag.)" := by
  show (if c.finish_name = "SAFETY" then _ else _) = _
  rw [if_pos h]

/-- Claim C6, witness: a `SAFETY` candidate with empty text yields the
safety message, not the empty-text message. -/
theorem call_gemini_safety_precedence_witness :
    _call_gemini (GeminiOutcome.returns [⟨"SAFETY", CandText.val ""⟩]) =
      "(Agent response was blocked by safety filters. Try again, or use the \x27--no-search\x27 flag.)" :=
  call_gemini_safety_precedence ⟨"SAFETY", CandText.val ""⟩ [] rfl

/-- Claim C7, counterexample: for a provider item with all fields absent,
the record built by `fetch_search_results` holds `None` in the title
field, not the empty string. -/
theorem normalize_missing_fields_null_counterexample :
    (normalizeItem ⟨none, none, none⟩).title = none ∧
    ¬ ((normalizeItem ⟨none, none, none⟩).title = some "" ∧
      (normalizeItem ⟨none, none, none⟩).snippet = some "" ∧
      (normalizeItem ⟨none, none, none⟩).link = some "") := by
  exact ⟨rfl, by decide⟩

/-- Claim C7 (amended): `fetch_search_results` copies the provider item's
title, snippet and link fields unchanged into the record — an absent
field is stored as `None`, not as an empty string — and the empty-string
substitution happens only in `build_context_from_search`, whose formatting
treats a `None` field exactly like an empty-string field. -/
theorem fetch_normalization_keeps_null (it : ProviderItem) (i : Nat) :
    (normalizeItem it).title = it.title ∧
    (normalizeItem it).snippet = it.snippet ∧
    (normalizeItem it).link = it.link ∧
    formatItem i (normalizeItem it) =
      formatItem i ⟨some (orEmpty it.title), some (orEmpty it.snippet), some (orEmpty it.link), it⟩ :=
  ⟨rfl, rfl, rfl, rfl⟩

/-- Claim C8: when search is enabled and `fetch_search_results` raises
(any exception, any message), `ask_market` does not propagate it: the
grounding becomes the fixed warning string and the LLM is still called on
the message composed with that warning, its classification being
returned. -/
theorem ask_market_search_failure_degrades (query msg : String)
    (llmB : String → GeminiOutcome) :
    ask_market query true (SearchOutcome.raises msg) llmB =
      _call_gemini (llmB (mkUserMessage query
        "(Warning: search failed. Analysis will use general knowledge.)")) := rfl

/-- Claim C9: in the `/analyze` handler, `ask_market` is called with
`use_search` true exactly when the lowercased `no-search` parameter is
none of `"true"`, `"t"`, `"1"`; an absent parameter defaults to
`"false"`, so search is performed by default. -/
theorem analyze_search_default_semantics (noSearchArg : Option String) :
    (analyze_search_used noSearchArg = true ↔
      (pyLower (noSearchArg.getD "false") ≠ "true" ∧
        pyLower (noSearchArg.getD "false") ≠ "t" ∧
        pyLower (noSearchArg.getD "false") ≠ "1")) ∧
    analyze_search_used none = true ∧
    (∀ (qArg : Option String) (searchO : SearchOutcome) (llmB : String → GeminiOutcome),
      analyze qArg noSearchArg searchO llmB =
        sanitize_analysis_output
          (ask_market (qArg.getD "Ghost Kitchen Market US Strategy")
            (analyze_search_used noSearchArg) searchO llmB)) := by
  refine ⟨?_, by decide, fun _ _ _ => rfl⟩
  simp [analyze_search_used, Bool.not_eq_true', Bool.or_eq_false_iff, beq_eq_false_iff_ne,
    and_assoc]

/-- Claim C10: with a missing or placeholder search credential,
`fetch_search_results` raises `ValueError` no matter the cache contents,
the current time or the network behaviour — in particular a fresh cache
entry for the query is never served. -/
theorem fetch_credentials_checked_before_cache (cfg : GoogleConfig) (store : CacheStore)
    (now : Nat) (query : String) (net : HttpOutcome)
    (h : cfg.google_api_key = "" ∨ pyIn "PASTE" cfg.google_api_key = true
      ∨ cfg.google_cx = "" ∨ pyIn "PASTE" cfg.google_cx = true) :
    fetch_search_results cfg store now query net =
      Except.error (PyExn.valueError
        "Please set GOOGLE_API_KEY and GOOGLE_CX. See setup_google_search.md.") := by
  unfold fetch_search_results
  rw [if_pos h]

/-- Claim C10, witness: the store holds a fresh (age 0) entry for the
query, yet an empty API key makes the call raise `ValueError`. -/
theorem fetch_credentials_checked_before_cache_witness :
    cache_get freshStore "nvidia" 100 = some demoEntry ∧
    fetch_search_results ⟨"", "cx123"⟩ freshStore 100 "nvidia" (HttpOutcome.response 200 []) =
      Except.error (PyExn.valueError
        "Please set GOOGLE_API_KEY and GOOGLE_CX. See setup_google_search.md.") :=
  ⟨rfl, fetch_credentials_checked_before_cache ⟨"", "cx123"⟩ freshStore 100 "nvidia"
    (HttpOutcome.response 200 []) (Or.inl rfl)⟩

end MarketAgent
